import Mathlib

/-!
Verification development for the pg-models repository (a small ORM layer
over a PostgreSQL driver).  The definitions below are a shallow embedding of
the v1.0.7 class `PgormModel` (src/unnamed/part_001, second document) together
with the helper modules src/errors.js and src/util.js.  Queries are embedded
as structured statements whose components mirror the string templates of the
source; the external query-execution contract is modelled by an executor
function, instantiated either abstractly or by a small relational-table
interpreter for the statement shapes this library issues.
-/

namespace PgModels

/-- A JavaScript runtime value, as far as the library manipulates them:
`null`, `undefined`, booleans, numbers and strings.  (Objects such as rows
are modelled separately.) -/
inductive JsValue where
  | null
  | undef
  | bool (b : Bool)
  | num (n : Int)
  | str (s : String)
deriving DecidableEq, Repr

/-- JavaScript truthiness: `null`, `undefined`, `false`, `0` and the empty
string are falsy, everything else is truthy. -/
def JsValue.truthy : JsValue → Bool
  | .null => false
  | .undef => false
  | .bool b => b
  | .num n => decide (n ≠ 0)
  | .str s => decide (s ≠ "")

/-- JavaScript nullish test (`null` or `undefined`). -/
def JsValue.isNullish : JsValue → Bool
  | .null => true
  | .undef => true
  | _ => false

/-- The JavaScript `||` operator on values: the left operand when truthy,
otherwise the right operand. -/
def jsOr (a b : JsValue) : JsValue :=
  if a.truthy then a else b

/-- A raised JavaScript error.  `typeError` models a runtime `TypeError`,
`jsError` a plain `Error` (as thrown by user validators), and `pgormError`
a successfully constructed `PgormError` with message and `thrownAt` tag. -/
inductive JsError where
  | typeError (msg : String)
  | jsError (msg : String)
  | pgormError (msg : String) (thrownAt : String)
deriving DecidableEq, Repr

/-! ### src/errors.js

```
module.exports.PgormError = class extends Error{
  constructor(message, thrownAt){
    super(message);
    this.name = this.contructor.name;   // <- misspelt property
    this.stack = Error.captureStackTrace(this,this.contructor);
    this.thrownAt = thrownAt;
  }
}
```
`this.contructor` (sic) is looked up on the instance and its prototype chain;
no such property exists anywhere, so the lookup yields `undefined`, and the
immediately following `.name` access on `undefined` raises a `TypeError`.
We model the lookup explicitly over the property names that do exist. -/

/-- Own properties of the error instance right after `super(message)` runs.
(`super` sets `message`; `name` and `constructor` live on the prototypes.) -/
def pgormErrorOwnProps (message : String) : List (String × JsValue) :=
  [("message", JsValue.str message)]

/-- Properties available via the prototype chain of a `PgormError` instance
(`PgormError.prototype`, `Error.prototype`, `Object.prototype`).  The values
are placeholders; only the key names matter for the lookup.  Note the chain
has `constructor`, never the misspelt `contructor`. -/
def pgormErrorProtoProps : List (String × JsValue) :=
  [("constructor", JsValue.str "function PgormError"),
   ("name", JsValue.str "Error"),
   ("message", JsValue.str ""),
   ("toString", JsValue.str "function toString"),
   ("hasOwnProperty", JsValue.str "function hasOwnProperty")]

/-- JavaScript property lookup `this.<key>` on the freshly constructed error
instance: own properties first, then the prototype chain, else `undefined`. -/
def pgormErrorThisGet (message : String) (key : String) : JsValue :=
  match (pgormErrorOwnProps message).find? (fun p => p.1 = key) with
  | some p => p.2
  | none =>
    match pgormErrorProtoProps.find? (fun p => p.1 = key) with
    | some p => p.2
    | none => JsValue.undef

/-- Property access `v.<key>` on an arbitrary value: raises a `TypeError`
when `v` is `null` or `undefined`.  For the error-constructor model the only
use is `.name` on the result of the `contructor` lookup, so non-object
values just return `undefined` for any key. -/
def jsGetProp (v : JsValue) (key : String) : Except JsError JsValue :=
  match v with
  | .undef =>
    Except.error (JsError.typeError
      ("Cannot read properties of undefined (reading " ++ key ++ ")"))
  | .null =>
    Except.error (JsError.typeError
      ("Cannot read properties of null (reading " ++ key ++ ")"))
  | _ => Except.ok JsValue.undef

/-- The state of a `PgormError` object if construction were to finish. -/
structure PgormErrorObj where
  message : String
  thrownAt : String
deriving DecidableEq, Repr

/-- The body of the `PgormError` constructor from src/errors.js:
`super(message)`, then `this.name = this.contructor.name`, which performs
the misspelt lookup followed by a property access on its result. -/
def pgormErrorConstruct (message thrownAt : String) :
    Except JsError PgormErrorObj :=
  let ctor := pgormErrorThisGet message "contructor"
  match jsGetProp ctor "name" with
  | Except.error e => Except.error e
  | Except.ok _ => Except.ok { message := message, thrownAt := thrownAt }

/-- The error actually raised by `throw new PgormError(message, thrownAt)`:
if the constructor itself raises, that error propagates in place of the
intended `PgormError`. -/
def newPgormError (message thrownAt : String) : JsError :=
  match pgormErrorConstruct message thrownAt with
  | Except.error e => e
  | Except.ok o => JsError.pgormError o.message o.thrownAt

/-! ### Values objects and value arrangement

A candidate values object (`valuesObj`) is modelled as a total function from
keys to `JsValue`, with `JsValue.undef` standing for an absent key, exactly
as JavaScript property access returns `undefined` for missing keys. -/

/-- A JavaScript object used as a bag of column values. -/
abbrev Obj : Type := String → JsValue

/-- The loop body of `#arrangeByColumns`: iterate over the declared column
keys in order, pushing `valuesObj[key] || null` onto the accumulator array.
(The `Object.hasOwnProperty` guard always holds because `cols` is the list of
own keys of `this.columns`.) -/
def arrangeLoop (cols : List String) (values : Obj) (arr : List JsValue) :
    List JsValue :=
  match cols with
  | [] => arr
  | key :: rest => arrangeLoop rest values (arr ++ [jsOr (values key) JsValue.null])

/-- `PgormModel.#arrangeByColumns(valuesObj)`: arrange the candidate values
into the declared column order, substituting `null` via the `||` operator. -/
def arrangeByColumns (cols : List String) (values : Obj) : List JsValue :=
  arrangeLoop cols values []

/-- Modelled from the spec words of the value-arrangement rule, for
comparison with the source function: for each declared column take
`candidate[columnName]` if present and not nullish, else `null`. -/
def arrangeByColumnsNullishSpec (cols : List String) (values : Obj) :
    List JsValue :=
  cols.map (fun key => if (values key).isNullish then JsValue.null else values key)

/-- Unfolding lemma for the arrangement loop accumulator. -/
theorem arrangeLoop_eq (cols : List String) (values : Obj) (arr : List JsValue) :
    arrangeLoop cols values arr =
      arr ++ cols.map (fun key => jsOr (values key) JsValue.null) := by
  induction cols generalizing arr with
  | nil => simp [arrangeLoop]
  | cons key rest ih =>
    simp [arrangeLoop, ih]

/-- `#arrangeByColumns` is the column-ordered map of `valuesObj[key] || null`. -/
theorem arrangeByColumns_eq_map (cols : List String) (values : Obj) :
    arrangeByColumns cols values =
      cols.map (fun key => jsOr (values key) JsValue.null) := by
  simp [arrangeByColumns, arrangeLoop_eq]

/-- The arranged array always has one entry per declared column. -/
theorem arrangeByColumns_length (cols : List String) (values : Obj) :
    (arrangeByColumns cols values).length = cols.length := by
  simp [arrangeByColumns_eq_map]

/-! ### Model state after `define`

`PgormModel.#timestamps` starts as
`{createdAt: 'created_at', updatedAt: 'updated_at', deletedAt: 'deleted_at'}`
and is possibly renamed via the constructor; a model captures the names it
observes at operation time. -/

/-- The three timestamp column names, by object key. -/
structure TimestampNames where
  createdAt : String
  updatedAt : String
  deletedAt : String
deriving DecidableEq, Repr

/-- The `timestampsObj` literal from the source. -/
def timestampsObj : TimestampNames :=
  { createdAt := "created_at", updatedAt := "updated_at", deletedAt := "deleted_at" }

/-- `Object.values(PgormModel.#timestamps)` in key-insertion order
(`createdAt`, `updatedAt`, `deletedAt`). -/
def tsValues (t : TimestampNames) : List String :=
  [t.createdAt, t.updatedAt, t.deletedAt]

/-- A user-supplied validator function, invoked as
`fn(values[key], key, values)`; it signals failure by raising an error,
modelled as returning `some` error. -/
abbrev Validator : Type := JsValue → String → Obj → Option JsError

/-- One declared column of a model: its name (a key of the `columns` object)
and its ordered list of validator functions. -/
structure Column where
  name : String
  validations : List Validator

/-- A `PgormModel` instance after `define(columns)` has compiled its query
fragments.  `useTimestamps` and `paranoid` come from the merged
configuration; `tsNames` is the value of the static `PgormModel.#timestamps`
as observed by this model. -/
structure Model where
  tableName : String
  pkName : String
  columns : List Column
  useTimestamps : Bool
  paranoid : Bool
  tsNames : TimestampNames

/-- The declared column names in declaration order
(`Object.keys(this.columns)`). -/
def colNames (m : Model) : List String :=
  m.columns.map (fun c => c.name)

/-- `this.#columnsLen`, the compiled placeholder count set by `define`. -/
def columnsLen (m : Model) : Nat :=
  (colNames m).length

/-! ### JavaScript array sort

`Array.prototype.sort()` without a comparator sorts strings ascending.
Embedded as an insertion sort; ties keep the incumbent first, which is
irrelevant for the distinct names used here. -/

/-- Lexicographic comparison of character lists by code point, matching the
default JavaScript string comparison on the ASCII column names involved. -/
def charListLt : List Char → List Char → Bool
  | [], [] => false
  | [], _ :: _ => true
  | _ :: _, [] => false
  | a :: as, b :: bs =>
    if a.toNat < b.toNat then true
    else if b.toNat < a.toNat then false
    else charListLt as bs

/-- String comparison used by the default `sort()`. -/
def strLt (a b : String) : Bool := charListLt a.data b.data

/-- Insert a string into an ascending list. -/
def insertAsc (s : String) : List String → List String
  | [] => [s]
  | t :: ts => if strLt s t then s :: t :: ts else t :: insertAsc s ts

/-- `array.sort()` on strings: ascending lexicographic order. -/
def sortStrings : List String → List String
  | [] => []
  | s :: ss => insertAsc s (sortStrings ss)

/-! ### Embedded SQL statements

The source builds SQL strings from fixed templates; each template is
embedded as a structured statement carrying exactly the varying parts:
column names, placeholder indices (the `n` of `$n`) and the bound positional
parameters. -/

/-- A statement issued through the execution contract. -/
inductive Stmt where
  /-- `<selectQuery> [where <col>=$n] [<raw where>] [and <delCol> is null]`;
  `delFilter` records whether `#checkForDeletion` appended its clause. -/
  | select (table : String) (cols : List String) (whereEq : Option (String × Nat))
      (raw : String) (delFilter : Bool) (delCol : String) (params : List JsValue)
  /-- `INSERT INTO <table> (<cols>) VALUES (<$phs>) RETURNING *`. -/
  | insert (table : String) (cols : List String) (phs : List Nat)
      (params : List JsValue)
  /-- `UPDATE <table> set <col>=$i,... where <whereCol>=$<whereIdx> RETURNING *`. -/
  | update (table : String) (assigns : List (String × Nat)) (whereCol : String)
      (whereIdx : Nat) (params : List JsValue)
  /-- `DELETE FROM <table> WHERE <whereCol>=$<whereIdx>`. -/
  | delete (table : String) (whereCol : String) (whereIdx : Nat)
      (params : List JsValue)

/-- Column list of an insert statement. -/
def Stmt.insertColumns : Stmt → List String
  | .insert _ cols _ _ => cols
  | _ => []

/-- Placeholder indices of an insert statement. -/
def Stmt.insertPhs : Stmt → List Nat
  | .insert _ _ phs _ => phs
  | _ => []

/-- Bound positional parameters of a statement. -/
def Stmt.params : Stmt → List JsValue
  | .select _ _ _ _ _ _ ps => ps
  | .insert _ _ _ ps => ps
  | .update _ _ _ _ ps => ps
  | .delete _ _ _ ps => ps

/-- The placeholder index of the primary-key where clause (update/delete). -/
def Stmt.whereIdx : Stmt → Nat
  | .update _ _ _ n _ => n
  | .delete _ _ n _ => n
  | _ => 0

/-- Whether the statement carries the soft-delete filter of
`#checkForDeletion` (select statements only). -/
def Stmt.hasDelFilter : Stmt → Bool
  | .select _ _ _ _ d _ _ => d
  | _ => false

/-- Whether the statement writes (INSERT, UPDATE or DELETE). -/
def Stmt.isWrite : Stmt → Bool
  | .select _ _ _ _ _ _ _ => false
  | _ => true

/-- The columns of the cached `#selectQuery`: primary key, declared columns,
and the timestamp columns when timestamps are enabled. -/
def selectCols (m : Model) : List String :=
  m.pkName :: colNames m ++ (if m.useTimestamps then tsValues m.tsNames else [])

/-- The select issued by `findById(id)`:
`<selectQuery> where <pkName>=$1 <checkForDeletion()>`. -/
def findByIdStmt (m : Model) (id : Int) : Stmt :=
  Stmt.select m.tableName (selectCols m) (some (m.pkName, 1)) ""
    m.paranoid m.tsNames.deletedAt [JsValue.num id]

/-- The select issued by `findOne(column, value)`. -/
def findOneStmt (m : Model) (column : String) (value : JsValue) : Stmt :=
  Stmt.select m.tableName (selectCols m) (some (column, 1)) ""
    m.paranoid m.tsNames.deletedAt [value]

/-- The select issued by `findAll()`. -/
def findAllStmt (m : Model) : Stmt :=
  Stmt.select m.tableName (selectCols m) none "" m.paranoid
    m.tsNames.deletedAt []

/-- The select issued by `findAllWhere(whereClause, paramsArray)`. -/
def findAllWhereStmt (m : Model) (whereClause : String)
    (paramsArray : List JsValue) : Stmt :=
  Stmt.select m.tableName (selectCols m) none whereClause m.paranoid
    m.tsNames.deletedAt paramsArray

/-- The insert built by `create(values)`.  `now` is the value of
`getTimestamp()`.  When timestamps are enabled the timestamp column names
are appended sorted (`timestampsCols.sort()`), the placeholders continue at
`len+1`, and the values appended are `[timestamp, null, timestamp]`. -/
def createStmt (m : Model) (values : Obj) (now : String) : Stmt :=
  let len := columnsLen m
  let arrangedValues := arrangeByColumns (colNames m) values
  let timestampsCols := tsValues m.tsNames
  let timestampPhs := (List.range timestampsCols.length).map (fun i => len + i + 1)
  let cols := colNames m
  let phs := (List.range len).map (fun i => i + 1)
  if m.useTimestamps then
    Stmt.insert m.tableName (cols ++ sortStrings timestampsCols)
      (phs ++ timestampPhs)
      (arrangedValues ++ [JsValue.str now, JsValue.null, JsValue.str now])
  else
    Stmt.insert m.tableName cols phs arrangedValues

/-- The update built by `updateById(id, values)`: assignments `col=$(i+1)`
from `#updateCols`, plus `updatedAt=$(len+1)` when timestamps are enabled;
the where clause is always `<pkName>=$(len+2)`; the parameter list is the
arranged values, `getTimestamp()` when timestamps are enabled, then `id`. -/
def updateByIdStmt (m : Model) (values : Obj) (id : Int) (now : String) : Stmt :=
  let len := columnsLen m
  let arrangedValues := arrangeByColumns (colNames m) values
  let assigns := (colNames m).enum.map (fun p => (p.2, p.1 + 1))
  if m.useTimestamps then
    Stmt.update m.tableName (assigns ++ [(m.tsNames.updatedAt, len + 1)])
      m.pkName (len + 2) (arrangedValues ++ [JsValue.str now, JsValue.num id])
  else
    Stmt.update m.tableName assigns m.pkName (len + 2)
      (arrangedValues ++ [JsValue.num id])

/-- The update issued by the paranoid branch of `deleteById(id)`:
`UPDATE <table> SET <deletedAt>=$1 WHERE <pkName>=$2` with
`[getTimestamp(), id]`. -/
def softDeleteStmt (m : Model) (id : Int) (now : String) : Stmt :=
  Stmt.update m.tableName [(m.tsNames.deletedAt, 1)] m.pkName 2
    [JsValue.str now, JsValue.num id]

/-- The delete issued by the hard-delete branch of `deleteById(id)`. -/
def hardDeleteStmt (m : Model) (id : Int) : Stmt :=
  Stmt.delete m.tableName m.pkName 1 [JsValue.num id]

/-! ### Validation pipeline (`#validate`)

```
#validate(values = {}) {
  for (const key in this.columns) {
    this.columns[key]?.validations?.forEach((fn) =>
      fn?.(values[key], key, values)
    );
  }
}
```
A thrown error propagates out of `forEach` and out of the loop, so the
pipeline short-circuits at the first failing validator. -/

/-- Run one column's validators in registration order against
`(values[key], key, values)`, stopping at the first raised error. -/
def runValidators (validations : List Validator) (v : JsValue) (key : String)
    (values : Obj) : Option JsError :=
  match validations with
  | [] => none
  | fn :: rest =>
    match fn v key values with
    | some e => some e
    | none => runValidators rest v key values

/-- `PgormModel.#validate(values)`: columns in declaration order, each
column's validators in order, first raised error aborts. -/
def validate (cols : List Column) (values : Obj) : Option JsError :=
  match cols with
  | [] => none
  | c :: rest =>
    match runValidators c.validations (values c.name) c.name values with
    | some e => some e
    | none => validate rest values

/-! ### CRUD operations

A row object returned by the driver is a bag of column values.  The
execution contract is an executor `exec : σ → Stmt → σ × List Row` over an
abstract backend state `σ` (for purely shape-level claims `σ` is `Unit`; for
round-trip claims it is instantiated with the relational table interpreter
below).  Each operation returns its result, the backend state after its
statements, and the list of statements it issued, in order.

Hook outcomes: the registered `beforeCreate`/`beforeUpdate`/`beforeDestroy`
hook either raises or succeeds; an absent hook is skipped via optional
chaining.  Both "absent" and "ran and succeeded" are modelled by `none`,
"ran and raised `e`" by `some e`. -/

/-- A row object, as returned by the driver. -/
abbrev Row : Type := String → JsValue

/-- `rows[0] || null`: row objects are always truthy, so this is the head of
the row list if any, else null (`Option.none`). -/
def firstRowOrNull (rows : List Row) : Option Row :=
  rows.head?

/-- The outcome of one operation: result value, backend state, issued trace. -/
abbrev OpResult (σ α : Type) : Type := Except JsError α × σ × List Stmt

/-- `findById(id)`: execute the select, return `rows[0] || null`. -/
def findByIdE {σ : Type} (m : Model) (exec : σ → Stmt → σ × List Row)
    (s : σ) (id : Int) : OpResult σ (Option Row) :=
  let st := findByIdStmt m id
  let r := exec s st
  (Except.ok (firstRowOrNull r.2), r.1, [st])

/-- `findOne(column, value)`: raise on an undeclared column
(`throw new PgormError('Invalid column name', 'findOne')`), else execute the
select and return `rows[0] || null`. -/
def findOneE {σ : Type} (m : Model) (exec : σ → Stmt → σ × List Row)
    (s : σ) (column : String) (value : JsValue) : OpResult σ (Option Row) :=
  if (m.columns.find? (fun c => c.name = column)).isSome then
    let st := findOneStmt m column value
    let r := exec s st
    (Except.ok (firstRowOrNull r.2), r.1, [st])
  else
    (Except.error (newPgormError "Invalid column name" "findOne"), s, [])

/-- `findAll()`: execute the cached select (with the soft-delete filter when
paranoid) and return all rows. -/
def findAllE {σ : Type} (m : Model) (exec : σ → Stmt → σ × List Row)
    (s : σ) : OpResult σ (List Row) :=
  let st := findAllStmt m
  let r := exec s st
  (Except.ok r.2, r.1, [st])

/-- `findAllWhere(whereClause, paramsArray)`: append the raw where fragment
and the soft-delete filter, return all rows. -/
def findAllWhereE {σ : Type} (m : Model) (exec : σ → Stmt → σ × List Row)
    (s : σ) (whereClause : String) (paramsArray : List JsValue) :
    OpResult σ (List Row) :=
  let st := findAllWhereStmt m whereClause paramsArray
  let r := exec s st
  (Except.ok r.2, r.1, [st])

/-- `create(values)`: run `#validate`, then the before-create hook, then the
insert; return `rows[0] || null`. -/
def createE {σ : Type} (m : Model) (hookOutcome : Option JsError)
    (exec : σ → Stmt → σ × List Row) (s : σ) (values : Obj) (now : String) :
    OpResult σ (Option Row) :=
  match validate m.columns values with
  | some e => (Except.error e, s, [])
  | none =>
    match hookOutcome with
    | some e => (Except.error e, s, [])
    | none =>
      let st := createStmt m values now
      let r := exec s st
      (Except.ok (firstRowOrNull r.2), r.1, [st])

/-- `updateById(id, values)`: run `#validate`, then the before-update hook,
then the update; return `rows[0] || null`. -/
def updateByIdE {σ : Type} (m : Model) (hookOutcome : Option JsError)
    (exec : σ → Stmt → σ × List Row) (s : σ) (id : Int) (values : Obj)
    (now : String) : OpResult σ (Option Row) :=
  match validate m.columns values with
  | some e => (Except.error e, s, [])
  | none =>
    match hookOutcome with
    | some e => (Except.error e, s, [])
    | none =>
      let st := updateByIdStmt m values id now
      let r := exec s st
      (Except.ok (firstRowOrNull r.2), r.1, [st])

/-- The misconfiguration message of the paranoid branch of `deleteById`. -/
def paranoidNeedsTimestampsMsg : String :=
  "modalOptions.timestamps need to be enabled for modalOptions.paranoid to work."

/-- `deleteById(id)`: run the before-destroy hook, look the record up via
`findById`; if absent return `false`.  If paranoid, raise the configuration
error when timestamps are disabled, else soft-delete via UPDATE and return
`true`; otherwise hard-delete via DELETE and return `true`. -/
def deleteByIdE {σ : Type} (m : Model) (hookOutcome : Option JsError)
    (exec : σ → Stmt → σ × List Row) (s : σ) (id : Int) (now : String) :
    OpResult σ Bool :=
  match hookOutcome with
  | some e => (Except.error e, s, [])
  | none =>
    let f := findByIdE m exec s id
    match f.1 with
    | Except.error e => (Except.error e, f.2.1, f.2.2)
    | Except.ok none => (Except.ok false, f.2.1, f.2.2)
    | Except.ok (some _) =>
      if m.paranoid then
        if !m.useTimestamps then
          (Except.error (newPgormError paranoidNeedsTimestampsMsg "deleteById"),
           f.2.1, f.2.2)
        else
          let st := softDeleteStmt m id now
          let r := exec f.2.1 st
          (Except.ok true, r.1, f.2.2 ++ [st])
      else
        let st := hardDeleteStmt m id
        let r := exec f.2.1 st
        (Except.ok true, r.1, f.2.2 ++ [st])

/-! ### The execution contract over a relational table

The spec treats the database driver as an external collaborator with a
minimal contract: a statement plus positional parameters yields a row set.
For round-trip claims we instantiate the contract with an interpreter over a
bag of rows, covering exactly the statement shapes this library issues. -/

/-- A physical table: a list of row objects. -/
abbrev Table : Type := List Row

/-- Resolve placeholder `$n` against the positional parameter list. -/
def phValue (params : List JsValue) (n : Nat) : JsValue :=
  params.getD (n - 1) JsValue.null

/-- Whether a row satisfies a select's conditions: the `col=$n` equality (if
present) and the soft-delete `<delCol> is null` filter (if appended). -/
def rowMatchesSelect (whereEq : Option (String × Nat)) (delFilter : Bool)
    (delCol : String) (params : List JsValue) (r : Row) : Bool :=
  (match whereEq with
   | some w => r w.1 == phValue params w.2
   | none => true)
  && (if delFilter then r delCol == JsValue.null else true)

/-- Apply an update's assignment list `col=$n` to a row. -/
def applyAssigns (assigns : List (String × Nat)) (params : List JsValue)
    (r : Row) : Row :=
  fun c =>
    match assigns.find? (fun a => a.1 = c) with
    | some a => phValue params a.2
    | none => r c

/-- The row inserted by an INSERT statement: each listed column receives the
value of its placeholder, unlisted columns are null (fresh row defaults). -/
def insertedRow (cols : List String) (phs : List Nat) (params : List JsValue) :
    Row :=
  fun c =>
    match (cols.zip phs).find? (fun p => p.1 = c) with
    | some p => phValue params p.2
    | none => JsValue.null

/-- The table interpreter for the execution contract: runs one statement
against the table, returning the new table and the result row set
(`RETURNING *` for inserts and updates, the matching rows for selects).
Raw caller-supplied where fragments are not interpreted (none of the claims
verified against this interpreter uses them). -/
def dbExec (t : Table) (st : Stmt) : Table × List Row :=
  match st with
  | .select _ _ whereEq _ delFilter delCol params =>
    (t, t.filter (rowMatchesSelect whereEq delFilter delCol params))
  | .insert _ cols phs params =>
    let nr := insertedRow cols phs params
    (t ++ [nr], [nr])
  | .update _ assigns whereCol whereIdx params =>
    let hit : Row → Bool := fun r => r whereCol == phValue params whereIdx
    (t.map (fun r => if hit r then applyAssigns assigns params r else r),
     (t.filter hit).map (applyAssigns assigns params))
  | .delete _ whereCol whereIdx params =>
    let hit : Row → Bool := fun r => r whereCol == phValue params whereIdx
    (t.filter (fun r => !hit r), [])

/-! ### Configuration layering

`globalOptions` and `modalOptions` are plain object literals; `setOptions`
and the constructor layer user-supplied option objects over them with object
spread.  A user-supplied options object is modelled as a record of `Option`
fields (`none` = key absent); spread keeps the right operand's value for the
keys it has.  The renamed source key `tablePrefix` appears here as
`tablePref`. -/

/-- Whether `timestamps` is a boolean or a rename object (whose keys are
themselves optional). -/
inductive TsOption where
  | bool (b : Bool)
  | names (createdAt updatedAt deletedAt : Option String)
deriving DecidableEq, Repr

/-- An options object (keys optional). -/
structure OptIn where
  tableName : Option String
  tablePref : Option String
  tableSchema : Option String
  pkName : Option String
  timestamps : Option TsOption
  paranoid : Option Bool
  alter : Option Bool
  errorLogs : Option Bool
deriving DecidableEq, Repr

/-- The empty options object (also stands for the never-called
`#globalConfigOptions = undefined`, which spreads to nothing). -/
def emptyOpt : OptIn :=
  { tableName := none, tablePref := none, tableSchema := none, pkName := none,
    timestamps := none, paranoid := none, alter := none, errorLogs := none }

/-- The `globalOptions` literal of the source: `tablePrefix: ''`,
`tableSchema: 'public'`, `pkName: 'id'`, `timestamps: false`,
`paranoid: false`, `alter: false`, `errorLogs: false` (no `tableName`). -/
def globalOptionsObj : OptIn :=
  { tableName := none, tablePref := some "", tableSchema := some "public",
    pkName := some "id", timestamps := some (TsOption.bool false),
    paranoid := some false, alter := some false, errorLogs := some false }

/-- The `modalOptions` literal: `{...globalOptions, tableName: ''}`. -/
def modalOptionsObj : OptIn :=
  { tableName := some "", tablePref := some "", tableSchema := some "public",
    pkName := some "id", timestamps := some (TsOption.bool false),
    paranoid := some false, alter := some false, errorLogs := some false }

/-- Object spread `{...a, ...b}` over this option shape: `b` wins for every
key it carries. -/
def mergeOpt (a b : OptIn) : OptIn :=
  { tableName := b.tableName <|> a.tableName,
    tablePref := b.tablePref <|> a.tablePref,
    tableSchema := b.tableSchema <|> a.tableSchema,
    pkName := b.pkName <|> a.pkName,
    timestamps := b.timestamps <|> a.timestamps,
    paranoid := b.paranoid <|> a.paranoid,
    alter := b.alter <|> a.alter,
    errorLogs := b.errorLogs <|> a.errorLogs }

/-- `PgormModel.setOptions(options)`:
`#globalConfigOptions = { ...globalOptions, ...options }`. -/
def setOptionsMerge (options : OptIn) : OptIn :=
  mergeOpt globalOptionsObj options

/-- The constructor's effective configuration:
`this.#configOptions = { ...modalOptions, ...PgormModel.#globalConfigOptions,
...options }`. -/
def constructConfig (globalCfg : OptIn) (options : OptIn) : OptIn :=
  mergeOpt (mergeOpt modalOptionsObj globalCfg) options

/-- The process-wide ORM static state relevant to configuration: the merged
global options and the registry of constructed models with the configuration
each captured at construction. -/
structure OrmState where
  globalCfg : OptIn
  models : List (String × OptIn)

/-- Initial static state (`#globalConfigOptions` unset, no models). -/
def OrmState.init : OrmState :=
  { globalCfg := emptyOpt, models := [] }

/-- Effect of `PgormModel.setOptions(options)` on the static state. -/
def OrmState.setOptions (st : OrmState) (options : OptIn) : OrmState :=
  { globalCfg := setOptionsMerge options, models := st.models }

/-- Effect of `new PgormModel(modelName, options)` on the static state: the
instance captures its merged configuration at construction and registers
itself. -/
def OrmState.construct (st : OrmState) (modelName : String) (options : OptIn) :
    OrmState :=
  { globalCfg := st.globalCfg,
    models := (modelName, constructConfig st.globalCfg options) :: st.models }

/-! ## Claim theorems -/

/-! ### C1 — value arrangement -/

/-- A candidate object carrying the falsy but non-nullish number `0`. -/
def zeroAgeValues : Obj :=
  fun key => if key = "age" then JsValue.num 0 else JsValue.undef

/-- C1 counterexample: on the declared column `age` with candidate value `0`
(present and not nullish), `#arrangeByColumns` produces `null` (because the
source uses the `||` operator, which also nulls falsy values), while the
claim's present-and-not-nullish rule keeps `0`. -/
theorem c1_arrangement_counterexample :
    arrangeByColumns ["age"] zeroAgeValues ≠
      arrangeByColumnsNullishSpec ["age"] zeroAgeValues := by
  decide

/-- C1 (amended): for every declared-column set and candidate values object,
the arranged positional array takes, per declared column in declaration
order, `candidate[columnName]` if present and truthy (the JavaScript `||`
rule, which replaces falsy values such as `0`, `''` and `false` by `null` as
well), else `null`; its length always equals the compiled placeholder count
`#columnsLen`, the number of declared columns. -/
theorem c1_value_arrangement (m : Model) (values : Obj) :
    arrangeByColumns (colNames m) values =
      (colNames m).map (fun key => jsOr (values key) JsValue.null)
    ∧ (arrangeByColumns (colNames m) values).length = columnsLen m := by
  exact ⟨arrangeByColumns_eq_map _ _, arrangeByColumns_length _ _⟩

/-! ### C10 — the PgormError constructor raises a TypeError -/

/-- C10: constructing a `PgormError` (src/errors.js) dereferences
`this.contructor`, a misspelling of `constructor` that is `undefined` on the
instance and its prototype chain, so the constructor raises a `TypeError`
for every message and method-name argument; consequently every
`throw new PgormError(...)` raises that `TypeError` instead of a
`PgormError`. -/
theorem c10_pgorm_error_raises_type_error (message thrownAt : String) :
    pgormErrorConstruct message thrownAt =
      Except.error (JsError.typeError
        "Cannot read properties of undefined (reading name)")
    ∧ newPgormError message thrownAt =
      JsError.typeError "Cannot read properties of undefined (reading name)" :=
  ⟨rfl, rfl⟩

/-! ### C8 — configuration layering -/

/-- Layering a present-or-absent per-model field over an always-present
global layer built over the same default. -/
theorem orElse_absorb_default {α : Type} (o g : Option α) (d : α) :
    (o <|> ((g <|> some d) <|> some d)) = (o <|> (g <|> some d)) := by
  cases o <;> cases g <;> rfl

/-- Same, for the `tableName` key that `globalOptions` does not carry. -/
theorem orElse_none_default {α : Type} (o g : Option α) (d : α) :
    (o <|> ((g <|> none) <|> some d)) = (o <|> (g <|> some d)) := by
  cases o <;> cases g <;> rfl

/-- C8: for every global-options object `g` passed to `setOptions` and every
per-model options object `o` passed to the constructor, the effective
configuration is the layered merge — per-model over global over the built-in
defaults `tableSchema "public"`, `pkName "id"`, `timestamps`/`paranoid`/
`alter`/`errorLogs` false, empty table prefix — and the configuration a
model captured at construction is not changed by any later `setOptions`. -/
theorem c8_config_layering (g o g2 : OptIn) (modelName : String) :
    (constructConfig (setOptionsMerge g) o).pkName =
      (o.pkName <|> (g.pkName <|> some "id"))
    ∧ (constructConfig (setOptionsMerge g) o).tableSchema =
      (o.tableSchema <|> (g.tableSchema <|> some "public"))
    ∧ (constructConfig (setOptionsMerge g) o).tablePref =
      (o.tablePref <|> (g.tablePref <|> some ""))
    ∧ (constructConfig (setOptionsMerge g) o).timestamps =
      (o.timestamps <|> (g.timestamps <|> some (TsOption.bool false)))
    ∧ (constructConfig (setOptionsMerge g) o).paranoid =
      (o.paranoid <|> (g.paranoid <|> some false))
    ∧ (constructConfig (setOptionsMerge g) o).alter =
      (o.alter <|> (g.alter <|> some false))
    ∧ (constructConfig (setOptionsMerge g) o).errorLogs =
      (o.errorLogs <|> (g.errorLogs <|> some false))
    ∧ (constructConfig (setOptionsMerge g) o).tableName =
      (o.tableName <|> (g.tableName <|> some ""))
    ∧ (((OrmState.init.setOptions g).construct modelName o).setOptions g2).models
        = ((OrmState.init.setOptions g).construct modelName o).models := by
  refine ⟨?_, ?_, ?_, ?_, ?_, ?_, ?_, ?_, rfl⟩
  · exact orElse_absorb_default o.pkName g.pkName "id"
  · exact orElse_absorb_default o.tableSchema g.tableSchema "public"
  · exact orElse_absorb_default o.tablePref g.tablePref ""
  · exact orElse_absorb_default o.timestamps g.timestamps (TsOption.bool false)
  · exact orElse_absorb_default o.paranoid g.paranoid false
  · exact orElse_absorb_default o.alter g.alter false
  · exact orElse_absorb_default o.errorLogs g.errorLogs false
  · exact orElse_none_default o.tableName g.tableName ""

/-! ### C9 — the updateById placeholder mismatch -/

/-- C9: `updateById` always places the primary-key WHERE placeholder at
index `#columnsLen + 2`, independent of the timestamps setting, while the
bound parameter list has `#columnsLen + 2` entries only when timestamps are
enabled; with timestamps disabled the parameter list has `#columnsLen + 1`
entries, so the statement references one more placeholder index than the
number of parameters supplied. -/
theorem c9_update_placeholder_mismatch (m : Model) (values : Obj) (id : Int)
    (now : String) :
    (updateByIdStmt m values id now).whereIdx = columnsLen m + 2
    ∧ (m.useTimestamps = false →
        (updateByIdStmt m values id now).params.length = columnsLen m + 1
        ∧ (updateByIdStmt m values id now).whereIdx =
            (updateByIdStmt m values id now).params.length + 1)
    ∧ (m.useTimestamps = true →
        (updateByIdStmt m values id now).params.length = columnsLen m + 2) := by
  have hlen : (arrangeByColumns (colNames m) values).length = columnsLen m :=
    arrangeByColumns_length _ _
  refine ⟨?_, fun h => ⟨?_, ?_⟩, fun h => ?_⟩
  · cases h : m.useTimestamps <;> simp [updateByIdStmt, Stmt.whereIdx, h]
  · simp [updateByIdStmt, Stmt.params, h, hlen]
  · simp [updateByIdStmt, Stmt.params, Stmt.whereIdx, h, hlen]
  · simp [updateByIdStmt, Stmt.params, h, hlen]

/-- A candidate values object with no keys. -/
def emptyObj : Obj := fun _ => JsValue.undef

/-- A single-column model with timestamps disabled, exercising the
update placeholder mismatch. -/
def c9Model : Model :=
  { tableName := "t9", pkName := "id", columns := [{ name := "a", validations := [] }],
    useTimestamps := false, paranoid := false, tsNames := timestampsObj }

/-- C9 witness: on a one-column model with timestamps disabled, the UPDATE
references `$3` in its WHERE clause while binding only 2 parameters. -/
theorem c9_witness :
    (updateByIdStmt c9Model emptyObj 1 "T").whereIdx = 3
    ∧ (updateByIdStmt c9Model emptyObj 1 "T").params.length = 2 := by
  have h := c9_update_placeholder_mismatch c9Model emptyObj 1 "T"
  exact ⟨h.1, (h.2.1 rfl).1⟩

/-! ### C3 — deleteById on a missing id is a read-only no-op -/

/-- C3: for every id whose existence lookup returns no record, `deleteById`
returns `false` without raising (given the before-destroy hook does not
raise, modelled by the `none` hook outcome): its trace is exactly the one
existence-lookup SELECT — no DELETE and no UPDATE statement is issued. -/
theorem c3_delete_missing_id_noop (σ : Type) (m : Model)
    (exec : σ → Stmt → σ × List Row) (s : σ) (id : Int) (now : String)
    (hlookup : (exec s (findByIdStmt m id)).2 = []) :
    deleteByIdE m none exec s id now =
      (Except.ok false, (exec s (findByIdStmt m id)).1, [findByIdStmt m id]) := by
  simp [deleteByIdE, findByIdE, firstRowOrNull, hlookup]

/-- An executor modelling a backend that returns no rows for any statement. -/
def nullExec : Unit → Stmt → Unit × List Row := fun s _ => (s, [])

/-- A plain model (no timestamps, not paranoid) with one column. -/
def c3Model : Model :=
  { tableName := "t3", pkName := "id", columns := [{ name := "a", validations := [] }],
    useTimestamps := false, paranoid := false, tsNames := timestampsObj }

/-- C3 witness: against a backend with no matching row, `deleteById 5`
returns `false` and issues only the lookup SELECT. -/
theorem c3_witness :
    deleteByIdE c3Model none nullExec () 5 "T" =
      (Except.ok false, (), [findByIdStmt c3Model 5]) :=
  c3_delete_missing_id_noop Unit c3Model nullExec () 5 "T" rfl

/-! ### C2 — paranoid without timestamps -/

/-- A model configured `paranoid: true` with timestamps disabled. -/
def paranoidNoTsModel : Model :=
  { tableName := "t2", pkName := "id", columns := [],
    useTimestamps := false, paranoid := true, tsNames := timestampsObj }

/-- C2 counterexample: on a paranoid model without timestamps, `deleteById 1`
against a backend holding no record with that id returns `false` — it does
not fail — refuting the claim that every `deleteById` call fails for every
id under this configuration. -/
theorem c2_counterexample :
    (deleteByIdE paranoidNoTsModel none nullExec () 1 "T").1 =
      Except.ok false := rfl

/-- A row object with primary key value 1. -/
def row1 : Row := fun key => if key = "id" then JsValue.num 1 else JsValue.null

/-- An executor modelling a backend that returns `row1` for any statement. -/
def oneRowExec : Unit → Stmt → Unit × List Row := fun s _ => (s, [row1])

/-- C2 (amended): for every model configured paranoid without timestamps,
every `deleteById` call whose existence lookup returns a record raises
before issuing any UPDATE or DELETE (the raised error is the intended
configuration `PgormError`, which the defective error constructor turns
into a `TypeError`); calls whose lookup returns no record return `false`
instead of raising. -/
theorem c2_paranoid_requires_timestamps (σ : Type) (m : Model)
    (exec : σ → Stmt → σ × List Row) (s : σ) (id : Int) (now : String)
    (r : Row) (rest : List Row)
    (hpar : m.paranoid = true) (hts : m.useTimestamps = false)
    (hlookup : (exec s (findByIdStmt m id)).2 = r :: rest) :
    deleteByIdE m none exec s id now =
      (Except.error (newPgormError paranoidNeedsTimestampsMsg "deleteById"),
       (exec s (findByIdStmt m id)).1, [findByIdStmt m id]) := by
  simp [deleteByIdE, findByIdE, firstRowOrNull, hlookup, hpar, hts]

/-- C2 witness: on the paranoid-without-timestamps model, `deleteById 1`
whose lookup finds a record raises and issues no write statement. -/
theorem c2_witness :
    deleteByIdE paranoidNoTsModel none oneRowExec () 1 "T" =
      (Except.error (newPgormError paranoidNeedsTimestampsMsg "deleteById"),
       (), [findByIdStmt paranoidNoTsModel 1]) :=
  c2_paranoid_requires_timestamps Unit paranoidNoTsModel oneRowExec () 1 "T"
    row1 [] rfl rfl rfl

/-! ### C4 — validation pipeline short-circuit -/

/-- `#validate` over an appended column list: the left part runs first and
its error short-circuits the right part. -/
theorem validate_append (xs ys : List Column) (values : Obj) :
    validate (xs ++ ys) values =
      match validate xs values with
      | some e => some e
      | none => validate ys values := by
  induction xs with
  | nil => simp [validate]
  | cons c rest ih =>
    simp only [List.cons_append, validate, ih]
    cases runValidators c.validations (values c.name) c.name values <;> simp [ih]

/-- C4: validators run per declared column in declaration order, each
invoked with `(value, columnName, wholeCandidateObject)`; when the
validators of some column raise (all earlier columns having passed), both
`create` and `updateById` propagate that error with an empty statement trace
— before any INSERT/UPDATE is executed and before the before-create/update
hook — and the pipeline's outcome is independent of every later column's
validators, which therefore never run. -/
theorem c4_validation_short_circuit (σ : Type) (m : Model) (values : Obj)
    (e : JsError) (pre post : List Column) (c : Column)
    (exec : σ → Stmt → σ × List Row) (s : σ)
    (hookC hookU : Option JsError) (id : Int) (now : String)
    (hcols : m.columns = pre ++ c :: post)
    (hpre : validate pre values = none)
    (hfail : runValidators c.validations (values c.name) c.name values = some e) :
    validate m.columns values = some e
    ∧ (∀ post2 : List Column, validate (pre ++ c :: post2) values = some e)
    ∧ createE m hookC exec s values now = (Except.error e, s, [])
    ∧ updateByIdE m hookU exec s id values now = (Except.error e, s, []) := by
  have hany : ∀ post2 : List Column, validate (pre ++ c :: post2) values = some e := by
    intro post2
    rw [validate_append, hpre]
    simp [validate, hfail]
  have hval : validate m.columns values = some e := by rw [hcols]; exact hany post
  refine ⟨hval, hany, ?_, ?_⟩
  · simp [createE, hval]
  · simp [updateByIdE, hval]

/-- A validator that always raises. -/
def failingValidator : Validator := fun _ _ _ => some (JsError.jsError "bad")

/-- A validator that always passes. -/
def passingValidator : Validator := fun _ _ _ => none

/-- A two-column model whose first column's validator always raises. -/
def c4Model : Model :=
  { tableName := "t4", pkName := "id",
    columns := [{ name := "a", validations := [failingValidator] },
                { name := "b", validations := [passingValidator] }],
    useTimestamps := false, paranoid := false, tsNames := timestampsObj }

/-- C4 witness: on the two-column model whose first column fails validation,
`#validate` reports that error and `create` propagates it without issuing
any statement. -/
theorem c4_witness :
    validate c4Model.columns emptyObj = some (JsError.jsError "bad")
    ∧ createE c4Model none nullExec () emptyObj "T" =
        (Except.error (JsError.jsError "bad"), (), []) := by
  have h := c4_validation_short_circuit Unit c4Model emptyObj
    (JsError.jsError "bad") [] [{ name := "b", validations := [passingValidator] }]
    { name := "a", validations := [failingValidator] }
    nullExec () none none 1 "T" rfl rfl rfl
  exact ⟨h.1, h.2.2.1⟩

/-! ### C5 — no-match return policy -/

/-- A paranoid-without-timestamps model used to refute the unconditional
`deleteById` part of the no-match policy. -/
def c5BadModel : Model :=
  { tableName := "t5", pkName := "id", columns := [],
    useTimestamps := false, paranoid := true, tsNames := timestampsObj }

/-- An executor whose lookup finds `row1` for any statement. -/
def c5OneRowExec : Unit → Stmt → Unit × List Row := fun s _ => (s, [row1])

/-- C5 counterexample: the claim says `deleteById` returns `true` whenever
the target id exists, for every model; but on a paranoid model without
timestamps an existing target makes `deleteById` raise instead of returning
`true`. -/
theorem c5_counterexample :
    (deleteByIdE c5BadModel none c5OneRowExec () 1 "T").1 =
      Except.error (newPgormError paranoidNeedsTimestampsMsg "deleteById") := rfl

/-- C5 (amended): for every model and input (hooks and validators passing),
`findOne`, `findById`, `create` and `updateById` return null — not an error
— when the execution contract returns no row; `deleteById` returns `false`
when the target id does not exist, and `true` when it exists provided the
model is not misconfigured paranoid-without-timestamps (in which case it
raises); `findAll` and `findAllWhere` return an empty list rather than null
or an error when nothing matches. -/
theorem c5_no_match_policy (σ : Type) (m : Model)
    (exec : σ → Stmt → σ × List Row) (s : σ) (id : Int) (column : String)
    (value : JsValue) (values : Obj) (now : String) (whereClause : String)
    (ps : List JsValue) (r : Row) (rest : List Row) :
    ((m.columns.find? (fun c => c.name = column)).isSome = true →
      (exec s (findOneStmt m column value)).2 = [] →
      (findOneE m exec s column value).1 = Except.ok none)
    ∧ ((exec s (findByIdStmt m id)).2 = [] →
      (findByIdE m exec s id).1 = Except.ok none)
    ∧ (validate m.columns values = none →
      (exec s (createStmt m values now)).2 = [] →
      (createE m none exec s values now).1 = Except.ok none)
    ∧ (validate m.columns values = none →
      (exec s (updateByIdStmt m values id now)).2 = [] →
      (updateByIdE m none exec s id values now).1 = Except.ok none)
    ∧ ((exec s (findByIdStmt m id)).2 = [] →
      (deleteByIdE m none exec s id now).1 = Except.ok false)
    ∧ ((exec s (findByIdStmt m id)).2 = r :: rest →
      (m.paranoid = true → m.useTimestamps = true) →
      (deleteByIdE m none exec s id now).1 = Except.ok true)
    ∧ ((exec s (findAllStmt m)).2 = [] →
      (findAllE m exec s).1 = Except.ok [])
    ∧ ((exec s (findAllWhereStmt m whereClause ps)).2 = [] →
      (findAllWhereE m exec s whereClause ps).1 = Except.ok []) := by
  refine ⟨?_, ?_, ?_, ?_, ?_, ?_, ?_, ?_⟩
  · intro hdecl hrows
    simp [findOneE, hdecl, firstRowOrNull, hrows]
  · intro hrows
    simp [findByIdE, firstRowOrNull, hrows]
  · intro hval hrows
    simp [createE, hval, firstRowOrNull, hrows]
  · intro hval hrows
    simp [updateByIdE, hval, firstRowOrNull, hrows]
  · intro hrows
    simp [deleteByIdE, findByIdE, firstRowOrNull, hrows]
  · intro hrows hcfg
    cases hpar : m.paranoid with
    | false => simp [deleteByIdE, findByIdE, firstRowOrNull, hrows, hpar]
    | true =>
      simp [deleteByIdE, findByIdE, firstRowOrNull, hrows, hpar, hcfg hpar]
  · intro hrows
    simp [findAllE, hrows]
  · intro hrows
    simp [findAllWhereE, hrows]

/-- A well-configured one-column model for the no-match policy witness. -/
def c5GoodModel : Model :=
  { tableName := "t5g", pkName := "id", columns := [{ name := "a", validations := [] }],
    useTimestamps := false, paranoid := false, tsNames := timestampsObj }

/-- C5 witness: on a well-configured model, each operation follows the
no-match policy against an empty backend, and `deleteById` returns `true`
when the lookup finds a record. -/
theorem c5_witness :
    (findOneE c5GoodModel nullExec () "a" (JsValue.str "x")).1 = Except.ok none
    ∧ (findByIdE c5GoodModel nullExec () 1).1 = Except.ok none
    ∧ (createE c5GoodModel none nullExec () emptyObj "T").1 = Except.ok none
    ∧ (updateByIdE c5GoodModel none nullExec () 1 emptyObj "T").1 = Except.ok none
    ∧ (deleteByIdE c5GoodModel none nullExec () 1 "T").1 = Except.ok false
    ∧ (deleteByIdE c5GoodModel none c5OneRowExec () 1 "T").1 = Except.ok true
    ∧ (findAllE c5GoodModel nullExec ()).1 = Except.ok []
    ∧ (findAllWhereE c5GoodModel nullExec () "WHERE a=$1" [JsValue.str "x"]).1 =
        Except.ok [] := by
  have h0 := c5_no_match_policy Unit c5GoodModel nullExec () 1 "a"
    (JsValue.str "x") emptyObj "T" "WHERE a=$1" [JsValue.str "x"] row1 []
  have h1 := c5_no_match_policy Unit c5GoodModel c5OneRowExec () 1 "a"
    (JsValue.str "x") emptyObj "T" "WHERE a=$1" [JsValue.str "x"] row1 []
  exact ⟨h0.1 rfl rfl, h0.2.1 rfl, h0.2.2.1 rfl rfl, h0.2.2.2.1 rfl rfl,
    h0.2.2.2.2.1 rfl, h1.2.2.2.2.2.1 rfl (fun hp => by simp [c5GoodModel] at hp),
    h0.2.2.2.2.2.2.1 rfl, h0.2.2.2.2.2.2.2 rfl⟩

/-! ### C6 — insert statement shape under timestamps -/

/-- Inserting into an ascending list grows it by one. -/
theorem insertAsc_length (s : String) (l : List String) :
    (insertAsc s l).length = l.length + 1 := by
  induction l with
  | nil => rfl
  | cons t ts ih => simp only [insertAsc]; split <;> simp [ih]

/-- Sorting preserves the number of column names. -/
theorem sortStrings_length (l : List String) :
    (sortStrings l).length = l.length := by
  induction l with
  | nil => rfl
  | cons s ss ih => simp [sortStrings, insertAsc_length, ih]

/-- The three timestamp placeholders continue the declared-column
placeholders into one contiguous run `$1..$(len+3)`. -/
theorem timestampPhs_contiguous (len : Nat) :
    (List.range len).map (fun i => i + 1) ++
      (List.range 3).map (fun i => len + i + 1) =
      (List.range (len + 3)).map (fun i => i + 1) := by
  have h3 : List.range (len + 3) = List.range len ++ [len, len + 1, len + 2] := by
    rw [show len + 3 = (len + 2) + 1 by omega, List.range_succ,
        show len + 2 = (len + 1) + 1 by omega, List.range_succ, List.range_succ]
    simp
  rw [h3, List.map_append]
  have hr3 : List.range 3 = [0, 1, 2] := rfl
  rw [hr3]
  simp

/-- The timestamp rename used in the C6 counterexample: `deletedAt` renamed
to `"ad"`, which sorts before the default created-at and updated-at names. -/
def renamedTs : TimestampNames :=
  { createdAt := "created_at", updatedAt := "updated_at", deletedAt := "ad" }

/-- A one-column model with timestamps enabled under the rename. -/
def c6Model : Model :=
  { tableName := "t6", pkName := "id", columns := [{ name := "a", validations := [] }],
    useTimestamps := true, paranoid := false, tsNames := renamedTs }

/-- Modelled from the spec words of C6, for comparison with the source: the
timestamp columns ordered alphabetically by key name, i.e. in the key order
`createdAt`, `deletedAt`, `updatedAt`. -/
def tsKeyOrderCols (t : TimestampNames) : List String :=
  [t.createdAt, t.deletedAt, t.updatedAt]

/-- C6 counterexample: with the deleted-at column renamed to `"ad"`, the
INSERT built by `create` lists the timestamp columns sorted alphabetically
by configured column name (`ad, created_at, updated_at`), not in the
claim's alphabetical-by-key order (`created_at, ad, updated_at`). -/
theorem c6_counterexample :
    (createStmt c6Model emptyObj "T").insertColumns ≠
      colNames c6Model ++ tsKeyOrderCols c6Model.tsNames := by
  decide

/-- C6 (amended): for every model with timestamps enabled, the INSERT built
by `create` lists the declared column names in declaration order followed by
the timestamp column names sorted alphabetically by configured column name
(with the default names this gives `created_at, deleted_at, updated_at`,
matching the key order `createdAt, deletedAt, updatedAt`), with placeholders
continuing from the declared-column count in one contiguous run, and binds
the arranged declared values followed by the fixed value sequence `now`,
`null`, `now`; columns, placeholders and bound parameters all have matching
lengths. -/
theorem c6_create_insert_shape (m : Model) (values : Obj) (now : String)
    (hts : m.useTimestamps = true) :
    (createStmt m values now).insertColumns =
      colNames m ++ sortStrings (tsValues m.tsNames)
    ∧ (createStmt m values now).insertPhs =
      (List.range (columnsLen m + 3)).map (fun i => i + 1)
    ∧ (createStmt m values now).params =
      arrangeByColumns (colNames m) values ++
        [JsValue.str now, JsValue.null, JsValue.str now]
    ∧ (createStmt m values now).params.length =
      (createStmt m values now).insertPhs.length
    ∧ (createStmt m values now).insertColumns.length =
      (createStmt m values now).insertPhs.length := by
  have hlen : (arrangeByColumns (colNames m) values).length = columnsLen m :=
    arrangeByColumns_length _ _
  have hphs : (createStmt m values now).insertPhs =
      (List.range (columnsLen m + 3)).map (fun i => i + 1) := by
    simp only [createStmt, hts, if_true, Stmt.insertPhs]
    exact timestampPhs_contiguous (columnsLen m)
  refine ⟨?_, hphs, ?_, ?_, ?_⟩
  · simp [createStmt, hts, Stmt.insertColumns]
  · simp [createStmt, hts, Stmt.params]
  · rw [hphs]
    simp [createStmt, hts, Stmt.params, hlen]
  · rw [hphs]
    simp [createStmt, hts, Stmt.insertColumns, sortStrings_length, tsValues,
      columnsLen]

/-- C6 witness: the insert shape facts instantiated on the renamed-timestamps
model. -/
theorem c6_witness :
    (createStmt c6Model emptyObj "T").insertColumns =
      colNames c6Model ++ sortStrings (tsValues c6Model.tsNames)
    ∧ (createStmt c6Model emptyObj "T").insertPhs =
      (List.range (columnsLen c6Model + 3)).map (fun i => i + 1)
    ∧ (createStmt c6Model emptyObj "T").params =
      arrangeByColumns (colNames c6Model) emptyObj ++
        [JsValue.str "T", JsValue.null, JsValue.str "T"]
    ∧ (createStmt c6Model emptyObj "T").params.length =
      (createStmt c6Model emptyObj "T").insertPhs.length
    ∧ (createStmt c6Model emptyObj "T").insertColumns.length =
      (createStmt c6Model emptyObj "T").insertPhs.length :=
  c6_create_insert_shape c6Model emptyObj "T" rfl

/-! ### C7 — soft-delete round trip -/

/-- C7: for every model with `paranoid = true` and timestamps enabled and
every id whose (soft-delete-filtered) lookup finds a record, `deleteById`
returns `true` and issues — after the lookup SELECT — exactly one UPDATE
(the soft delete setting deleted-at to now) and no DELETE; the table keeps
all its rows; and a subsequent `findById` on the resulting table returns
null, because the read query carries the deleted-at-is-null filter. -/
theorem c7_soft_delete_round_trip (m : Model) (t : Table) (id : Int)
    (now : String)
    (hpar : m.paranoid = true) (hts : m.useTimestamps = true)
    (hne : t.filter (rowMatchesSelect (some (m.pkName, 1)) m.paranoid
      m.tsNames.deletedAt [JsValue.num id]) ≠ []) :
    (deleteByIdE m none dbExec t id now).1 = Except.ok true
    ∧ (deleteByIdE m none dbExec t id now).2.2 =
        [findByIdStmt m id, softDeleteStmt m id now]
    ∧ (deleteByIdE m none dbExec t id now).2.1.length = t.length
    ∧ (findByIdE m dbExec (deleteByIdE m none dbExec t id now).2.1 id).1 =
        Except.ok none
    ∧ (findByIdStmt m id).hasDelFilter = true := by
  obtain ⟨r, rs, hl⟩ : ∃ r rs,
      t.filter (rowMatchesSelect (some (m.pkName, 1)) m.paranoid
        m.tsNames.deletedAt [JsValue.num id]) = r :: rs := by
    cases hfe : t.filter (rowMatchesSelect (some (m.pkName, 1)) m.paranoid
        m.tsNames.deletedAt [JsValue.num id]) with
    | nil => exact absurd hfe hne
    | cons a as => exact ⟨a, as, rfl⟩
  have hph2 : phValue [JsValue.str now, JsValue.num id] 2 = JsValue.num id := rfl
  have hfind : List.find? (rowMatchesSelect (some (m.pkName, 1)) true
      m.tsNames.deletedAt [JsValue.num id]) t = some r := by
    have hl' := hl
    rw [hpar] at hl'
    rw [← List.filter_head?, hl']
    rfl
  have hd : deleteByIdE m none dbExec t id now =
      (Except.ok true,
       t.map (fun row =>
         if row m.pkName == JsValue.num id
         then applyAssigns [(m.tsNames.deletedAt, 1)]
           [JsValue.str now, JsValue.num id] row
         else row),
       [findByIdStmt m id, softDeleteStmt m id now]) := by
    simp [deleteByIdE, findByIdE, dbExec, findByIdStmt, softDeleteStmt,
      firstRowOrNull, hfind, hpar, hts, hph2]
  refine ⟨by rw [hd], by rw [hd], ?_, ?_, ?_⟩
  · rw [hd]
    exact List.length_map t _
  · rw [hd]
    simp [findByIdE, dbExec, findByIdStmt, firstRowOrNull]
    intro x hx
    by_cases hpk : x m.pkName = JsValue.num id
    · have hdel : (applyAssigns [(m.tsNames.deletedAt, 1)]
          [JsValue.str now, JsValue.num id] x) m.tsNames.deletedAt =
          JsValue.str now := by
        simp [applyAssigns, phValue]
      simp [rowMatchesSelect, hpk, hpar, hdel, phValue]
    · simp [rowMatchesSelect, hpk, hpar, phValue]
  · simp [findByIdStmt, Stmt.hasDelFilter, hpar]

/-- A paranoid model with timestamps enabled, pk column `id`. -/
def c7Model : Model :=
  { tableName := "t7", pkName := "id", columns := [{ name := "a", validations := [] }],
    useTimestamps := true, paranoid := true, tsNames := timestampsObj }

/-- A live (not soft-deleted) row with primary key 1. -/
def row7 : Row := fun key => if key = "id" then JsValue.num 1 else JsValue.null

/-- A one-row table holding `row7`. -/
def table7 : Table := [row7]

/-- C7 witness: soft-deleting the only row of a one-row table returns true,
issues a SELECT then an UPDATE, keeps the row count, and makes a subsequent
`findById` return null. -/
theorem c7_witness :
    (deleteByIdE c7Model none dbExec table7 1 "T").1 = Except.ok true
    ∧ (deleteByIdE c7Model none dbExec table7 1 "T").2.2 =
        [findByIdStmt c7Model 1, softDeleteStmt c7Model 1 "T"]
    ∧ (deleteByIdE c7Model none dbExec table7 1 "T").2.1.length = table7.length
    ∧ (findByIdE c7Model dbExec (deleteByIdE c7Model none dbExec table7 1 "T").2.1 1).1 =
        Except.ok none
    ∧ (findByIdStmt c7Model 1).hasDelFilter = true := by
  have hfil : table7.filter (rowMatchesSelect (some (c7Model.pkName, 1))
      c7Model.paranoid c7Model.tsNames.deletedAt [JsValue.num 1]) = [row7] := rfl
  exact c7_soft_delete_round_trip c7Model table7 1 "T" rfl rfl
    (by rw [hfil]; exact List.cons_ne_nil row7 [])

end PgModels
